import Mathlib

/-!
# Verification of the supercell-wx radar product ingest and cache core

A shallow embedding of the radar product ingest core:

* the WSR-88D Message-31 ("Digital Radar Data") binary decoder
  (`src/wxdata/source/scwx/wsr88d/rda/digital_radar_data.cpp`),
* the AWIPS text-product parser
  (`src/wxdata/source/scwx/awips/text_product_message.cpp`),
* the provider refresh state machine, the record caches and the geodesic
  coordinate builder
  (`src/scwx-qt/source/scwx/qt/manager/radar_product_manager.cpp`).

Byte streams are modelled as lists of bytes (`Fin 256`) with an explicit read
position.  Multi-byte integers are read in host (little-endian) order exactly
as `is.read` produces them, and then byte-swapped (`ntohs`/`ntohl`/`SwapFloat`
in the source); 32-bit floats are kept as their raw byte-swapped bit patterns.
Text streams are modelled as lists of characters together with a position and
an eof flag mirroring `std::istream` state.
-/

set_option maxRecDepth 100000

namespace Scwx

/-! ## Byte-stream utilities -/

/-- A single byte of the input stream. -/
abbrev Byte := Fin 256

/-- Read one byte at index `i`; out-of-range reads yield 0, matching the
zero-initialized fields the C++ decoder leaves untouched on a short stream. -/
def readU8 (d : List Byte) (i : Nat) : Nat := (d.getD i 0).val

/-- Read a 16-bit value at index `i` in host (little-endian) order, as
`is.read(reinterpret_cast<char*>(&x), 2)` stores it in memory. -/
def readU16LE (d : List Byte) (i : Nat) : Nat :=
  readU8 d i + readU8 d (i + 1) * 256

/-- Read a 32-bit value at index `i` in host (little-endian) order. -/
def readU32LE (d : List Byte) (i : Nat) : Nat :=
  readU8 d i + readU8 d (i + 1) * 256 + readU8 d (i + 2) * 65536 +
    readU8 d (i + 3) * 16777216

/-- `ntohs`: byte-swap a 16-bit value (the host is little-endian). -/
def swap16 (x : Nat) : Nat := x % 256 * 256 + x / 256 % 256

/-- `ntohl` / `Message::SwapFloat` on the raw bits: byte-swap a 32-bit value. -/
def swap32 (x : Nat) : Nat :=
  x % 256 * 16777216 + x / 256 % 256 * 65536 + x / 65536 % 256 * 256 +
    x / 16777216 % 256

/-- Reinterpret a 16-bit unsigned value as the signed `int16_t` it denotes. -/
def toInt16 (x : Nat) : Int :=
  if x % 65536 < 32768 then (x % 65536 : Int) else (x % 65536 : Int) - 65536

/-- A 16-bit big-endian read: host-order read followed by `ntohs`. -/
def readU16BE (d : List Byte) (i : Nat) : Nat := swap16 (readU16LE d i)

/-- A 32-bit big-endian read: host-order read followed by `ntohl`. -/
def readU32BE (d : List Byte) (i : Nat) : Nat := swap32 (readU32LE d i)

/-! ## Message-31 data blocks (`digital_radar_data.cpp`) -/

/-- `MomentDataBlock` of `digital_radar_data.cpp`.  `scale` and `offset` are
IEEE-754 floats kept as their byte-swapped 32-bit patterns. -/
structure MomentDataBlock where
  dataBlockType : List Byte
  dataName : String
  numberOfDataMomentGates : Nat
  dataMomentRange : Nat
  dataMomentRangeSampleInterval : Nat
  tover : Nat
  snrThreshold : Int
  controlFlags : Nat
  dataWordSize : Nat
  scale : Nat
  offset : Nat
  momentGates8 : List Nat
  momentGates16 : List Nat
deriving DecidableEq, Repr

/-- `MomentDataBlock::Create`.  On entry the stream position `pos` is just
after the 1-byte block type and the 3-byte data name read by the caller;
the function seeks 4 further reserved bytes, reads the fixed fields (20
bytes), byte-swaps them, and then reads the gate payload.  Returns the block
and the final stream position. -/
def MomentDataBlock.create (dataBlockType : List Byte) (dataName : String)
    (d : List Byte) (pos : Nat) : MomentDataBlock × Nat :=
  -- is.seekg(4, cur): skip bytes 4-7 of the block
  let p := pos + 4
  let numberOfDataMomentGates := swap16 (readU16LE d p)           -- 8-9
  let dataMomentRange := swap16 (readU16LE d (p + 2))             -- 10-11
  let dataMomentRangeSampleInterval := swap16 (readU16LE d (p + 4)) -- 12-13
  let tover := swap16 (readU16LE d (p + 6))                       -- 14-15
  let snrThreshold := toInt16 (swap16 (readU16LE d (p + 8)))      -- 16-17
  let controlFlags := readU8 d (p + 10)                           -- 18
  let dataWordSize := readU8 d (p + 11)                           -- 19
  let scale := swap32 (readU32LE d (p + 12))                      -- 20-23
  let offset := swap32 (readU32LE d (p + 16))                     -- 24-27
  let gpos := p + 20
  let (momentGates8, momentGates16, pos') :=
    if numberOfDataMomentGates ≤ 1840 then
      if dataWordSize = 8 then
        ((List.range numberOfDataMomentGates).map (fun i => readU8 d (gpos + i)),
         [], gpos + numberOfDataMomentGates)
      else if dataWordSize = 16 then
        ([],
         -- Message::SwapVector: each 16-bit element is byte-swapped
         (List.range numberOfDataMomentGates).map
           (fun i => swap16 (readU16LE d (gpos + 2 * i))),
         gpos + 2 * numberOfDataMomentGates)
      else
        -- invalid data word size: warning logged, no gates read
        ([], [], gpos)
    else
      -- invalid number of data moment gates: warning logged, no gates read
      ([], [], gpos)
  ({ dataBlockType, dataName, numberOfDataMomentGates, dataMomentRange,
     dataMomentRangeSampleInterval, tover, snrThreshold, controlFlags,
     dataWordSize, scale, offset, momentGates8, momentGates16 }, pos')

/-- `VolumeDataBlock` of `digital_radar_data.cpp`; floats as raw bits. -/
structure VolumeDataBlock where
  dataBlockType : List Byte
  dataName : String
  lrtup : Nat
  versionNumberMajor : Nat
  versionNumberMinor : Nat
  latitude : Nat
  longitude : Nat
  siteHeight : Int
  feedhornHeight : Nat
  calibrationConstant : Nat
  horizontaShvTxPower : Nat
  verticalShvTxPower : Nat
  systemDifferentialReflectivity : Nat
  initialSystemDifferentialPhase : Nat
  volumeCoveragePatternNumber : Nat
  processingStatus : Nat
deriving DecidableEq, Repr

/-- `VolumeDataBlock::Create`; `pos` is just after the type and name bytes. -/
def VolumeDataBlock.create (dataBlockType : List Byte) (dataName : String)
    (d : List Byte) (pos : Nat) : VolumeDataBlock × Nat :=
  ({ dataBlockType, dataName
   , lrtup := swap16 (readU16LE d pos)                            -- 4-5
   , versionNumberMajor := readU8 d (pos + 2)                     -- 6
   , versionNumberMinor := readU8 d (pos + 3)                     -- 7
   , latitude := swap32 (readU32LE d (pos + 4))                   -- 8-11
   , longitude := swap32 (readU32LE d (pos + 8))                  -- 12-15
   , siteHeight := toInt16 (swap16 (readU16LE d (pos + 12)))      -- 16-17
   , feedhornHeight := swap16 (readU16LE d (pos + 14))            -- 18-19
   , calibrationConstant := swap32 (readU32LE d (pos + 16))       -- 20-23
   , horizontaShvTxPower := swap32 (readU32LE d (pos + 20))       -- 24-27
   , verticalShvTxPower := swap32 (readU32LE d (pos + 24))        -- 28-31
   , systemDifferentialReflectivity := swap32 (readU32LE d (pos + 28))
   , initialSystemDifferentialPhase := swap32 (readU32LE d (pos + 32))
   , volumeCoveragePatternNumber := swap16 (readU16LE d (pos + 36)) -- 40-41
   , processingStatus := swap16 (readU16LE d (pos + 38)) }        -- 42-43
  , pos + 40)

/-- `ElevationDataBlock` of `digital_radar_data.cpp`. -/
structure ElevationDataBlock where
  dataBlockType : List Byte
  dataName : String
  lrtup : Nat
  atmos : Int
  calibrationConstant : Nat
deriving DecidableEq, Repr

/-- `ElevationDataBlock::Create`; `pos` is just after the type and name. -/
def ElevationDataBlock.create (dataBlockType : List Byte) (dataName : String)
    (d : List Byte) (pos : Nat) : ElevationDataBlock × Nat :=
  ({ dataBlockType, dataName
   , lrtup := swap16 (readU16LE d pos)                            -- 4-5
   , atmos := toInt16 (swap16 (readU16LE d (pos + 2)))            -- 6-7
   , calibrationConstant := swap32 (readU32LE d (pos + 4)) }      -- 8-11
  , pos + 8)

/-- `RadialDataBlock` of `digital_radar_data.cpp`. -/
structure RadialDataBlock where
  dataBlockType : List Byte
  dataName : String
  lrtup : Nat
  unambigiousRange : Nat
  noiseLevelHorizontal : Nat
  noiseLevelVertical : Nat
  nyquistVelocity : Nat
  radialFlags : Nat
  calibrationConstantHorizontal : Nat
  calibrationConstantVertical : Nat
deriving DecidableEq, Repr

/-- `RadialDataBlock::Create`; `pos` is just after the type and name. -/
def RadialDataBlock.create (dataBlockType : List Byte) (dataName : String)
    (d : List Byte) (pos : Nat) : RadialDataBlock × Nat :=
  ({ dataBlockType, dataName
   , lrtup := swap16 (readU16LE d pos)                            -- 4-5
   , unambigiousRange := swap16 (readU16LE d (pos + 2))           -- 6-7
   , noiseLevelHorizontal := swap32 (readU32LE d (pos + 4))       -- 8-11
   , noiseLevelVertical := swap32 (readU32LE d (pos + 8))         -- 12-15
   , nyquistVelocity := swap16 (readU16LE d (pos + 12))           -- 16-17
   , radialFlags := swap16 (readU16LE d (pos + 14))               -- 18-19
   , calibrationConstantHorizontal := swap32 (readU32LE d (pos + 16))
   , calibrationConstantVertical := swap32 (readU32LE d (pos + 20)) }
  , pos + 24)

/-! ## DigitalRadarData (Message 31) -/

/-- The record built by `DigitalRadarData::Parse` (`DigitalRadarDataImpl`).
Float fields are raw byte-swapped bit patterns. -/
structure DigitalRadarData where
  radarIdentifier : List Byte
  collectionTime : Nat
  modifiedJulianDate : Nat
  azimuthNumber : Nat
  azimuthAngle : Nat
  compressionIndicator : Nat
  radialLength : Nat
  azimuthResolutionSpacing : Nat
  radialStatus : Nat
  elevationNumber : Nat
  cutSectorNumber : Nat
  elevationAngle : Nat
  radialSpotBlankingStatus : Nat
  azimuthIndexingMode : Nat
  dataBlockCount : Nat
  dataBlockPointer : List Nat
  volumeDataBlock : Option VolumeDataBlock
  elevationDataBlock : Option ElevationDataBlock
  radialDataBlock : Option RadialDataBlock
  momentRefDataBlock : Option MomentDataBlock
  momentVelDataBlock : Option MomentDataBlock
  momentSwDataBlock : Option MomentDataBlock
  momentZdrDataBlock : Option MomentDataBlock
  momentPhiDataBlock : Option MomentDataBlock
  momentRhoDataBlock : Option MomentDataBlock
  momentCfpDataBlock : Option MomentDataBlock
deriving DecidableEq, Repr

/-- The 3-character data name at index `i`, decoded to a string for the
`strToDataBlock_` lookup. -/
def dataNameAt (d : List Byte) (i : Nat) : String :=
  String.mk [Char.ofNat (readU8 d i), Char.ofNat (readU8 d (i + 1)),
             Char.ofNat (readU8 d (i + 2))]

/-- One iteration of the data-block loop of `DigitalRadarData::Parse`: seek
to `isBegin + pointer`, read the 1-byte block type and the 3-byte data name,
and dispatch on the name exactly as `strToDataBlock_` and the switch do.
Unknown names are logged and skipped. -/
def parseBlockAt (d : List Byte) (isBegin : Nat) (ptr : Nat)
    (r : DigitalRadarData) : DigitalRadarData :=
  let bpos := isBegin + ptr
  let dataBlockType := [d.getD bpos 0]
  let dataName := dataNameAt d (bpos + 1)
  let cpos := bpos + 4
  if dataName = "VOL" then
    { r with volumeDataBlock := some (VolumeDataBlock.create dataBlockType dataName d cpos).1 }
  else if dataName = "ELV" then
    { r with elevationDataBlock := some (ElevationDataBlock.create dataBlockType dataName d cpos).1 }
  else if dataName = "RAD" then
    { r with radialDataBlock := some (RadialDataBlock.create dataBlockType dataName d cpos).1 }
  else if dataName = "REF" then
    { r with momentRefDataBlock := some (MomentDataBlock.create dataBlockType dataName d cpos).1 }
  else if dataName = "VEL" then
    { r with momentVelDataBlock := some (MomentDataBlock.create dataBlockType dataName d cpos).1 }
  else if dataName = "SW " then
    { r with momentSwDataBlock := some (MomentDataBlock.create dataBlockType dataName d cpos).1 }
  else if dataName = "ZDR" then
    { r with momentZdrDataBlock := some (MomentDataBlock.create dataBlockType dataName d cpos).1 }
  else if dataName = "PHI" then
    { r with momentPhiDataBlock := some (MomentDataBlock.create dataBlockType dataName d cpos).1 }
  else if dataName = "RHO" then
    { r with momentRhoDataBlock := some (MomentDataBlock.create dataBlockType dataName d cpos).1 }
  else if dataName = "CFP" then
    { r with momentCfpDataBlock := some (MomentDataBlock.create dataBlockType dataName d cpos).1 }
  else
    r

/-- `DigitalRadarData::Parse`.  `validateMessageResult` is the Boolean result
of the trailing `ValidateMessage` step, which is defined in the `Message`
base class (not part of the sources under verification) and can only fail the
message, never repair it.  Returns the `messageValid` flag and the record. -/
def DigitalRadarData.parse (d : List Byte) (pos : Nat)
    (validateMessageResult : Bool) : Bool × DigitalRadarData :=
  let isBegin := pos
  let count0 := swap16 (readU16LE d (pos + 30))                   -- 30-31
  let compressionIndicator := readU8 d (pos + 16)                 -- 16
  -- dataBlockCount < 4 || dataBlockCount > 10: clear the count, invalidate
  let c1 := if count0 < 4 ∨ 10 < count0 then 0 else count0
  let v1 := ¬(count0 < 4 ∨ 10 < count0)
  -- compressionIndicator != 0: compression not supported, clear, invalidate
  let c2 := if compressionIndicator ≠ 0 then 0 else c1
  let v2 := if compressionIndicator ≠ 0 then False else v1
  -- read c2 * 4 pointer bytes; the rest of the 10-entry array stays 0;
  -- SwapArray swaps the first c2 entries
  let pointers := (List.range 10).map
    (fun i => if i < c2 then swap32 (readU32LE d (pos + 32 + 4 * i)) else 0)
  let rec0 : DigitalRadarData :=
    { radarIdentifier := [d.getD pos 0, d.getD (pos + 1) 0, d.getD (pos + 2) 0,
                          d.getD (pos + 3) 0]                     -- 0-3
    , collectionTime := swap32 (readU32LE d (pos + 4))            -- 4-7
    , modifiedJulianDate := swap16 (readU16LE d (pos + 8))        -- 8-9
    , azimuthNumber := swap16 (readU16LE d (pos + 10))            -- 10-11
    , azimuthAngle := swap32 (readU32LE d (pos + 12))             -- 12-15
    , compressionIndicator
    -- byte 17 is skipped (is.seekg(1, cur))
    , radialLength := swap16 (readU16LE d (pos + 18))             -- 18-19
    , azimuthResolutionSpacing := readU8 d (pos + 20)             -- 20
    , radialStatus := readU8 d (pos + 21)                         -- 21
    , elevationNumber := readU8 d (pos + 22)                      -- 22
    , cutSectorNumber := readU8 d (pos + 23)                      -- 23
    , elevationAngle := swap32 (readU32LE d (pos + 24))           -- 24-27
    , radialSpotBlankingStatus := readU8 d (pos + 28)             -- 28
    , azimuthIndexingMode := readU8 d (pos + 29)                  -- 29
    , dataBlockCount := c2
    , dataBlockPointer := pointers
    , volumeDataBlock := none, elevationDataBlock := none
    , radialDataBlock := none, momentRefDataBlock := none
    , momentVelDataBlock := none, momentSwDataBlock := none
    , momentZdrDataBlock := none, momentPhiDataBlock := none
    , momentRhoDataBlock := none, momentCfpDataBlock := none }
  let recF := (List.range c2).foldl
    (fun r b => parseBlockAt d isBegin (pointers.getD b 0) r) rec0
  ((decide v2 && validateMessageResult), recF)

/-! ## Text-product parser (`text_product_message.cpp`)

The parser works on a seekable text stream; we model it as the character
list, a read position, and an eof flag.  `util::getline` is declared in
`scwx/util/streams.hpp`, which is not part of the sources under
verification; it is modelled from the spec below. -/

/-- The text stream state: characters, the read position (`tellg`), and the
eof flag of the `std::istream`. -/
structure TStream where
  data : List Char
  pos : Nat
  eofbit : Bool
deriving DecidableEq, Repr

/-- `is.peek()`: the next character, or `none` for `EOF`. -/
def tpeek (s : TStream) : Option Char := s.data.get? s.pos

/-- `is.seekg(p, beg)`: seek to an absolute position; clears the eof flag. -/
def seekTo (s : TStream) (p : Nat) : TStream := { s with pos := p, eofbit := false }

/-- `is.get()` of a single known-present character (used to consume ETX). -/
def tconsume (s : TStream) : TStream := { s with pos := s.pos + 1 }

/-- Scan one line: the line's characters, the number of characters consumed
(line and terminator), and whether a terminator was found.  Modelled from the
spec: lines are CRLF-terminated, with the AWIPS doubled-CR form CR CR LF also
ending a single line, and a bare LF or CR accepted; a line consisting only of
its terminator is a blank line, whose first character is CR. -/
def lineScan : List Char → List Char × Nat × Bool
  | [] => ([], 0, false)
  | '\n' :: _ => ([], 1, true)
  | '\r' :: rest =>
    match rest with
    | '\r' :: '\n' :: _ => ([], 3, true)
    | '\r' :: _ => ([], 2, true)
    | '\n' :: _ => ([], 2, true)
    | _ => ([], 1, true)
  | c :: rest =>
    let r := lineScan rest
    (c :: r.1, r.2.1 + 1, r.2.2)

/-- `util::getline`: modelled from the spec (`scwx/util/streams.hpp` is not
in the sources under verification).  Reads one line per `lineScan`; if the
stream is already at eof the read fails and leaves an empty line; a read at
the very end of the data with no characters and no terminator sets the eof
flag (a final line without a terminator is still returned). -/
def tgetline (s : TStream) : List Char × TStream :=
  if s.eofbit then ([], s)
  else
    let r := lineScan (s.data.drop s.pos)
    (r.1, { s with pos := s.pos + r.2.1,
                   eofbit := !r.2.2 && r.1.isEmpty })

/-- The ETX control character (`common::Characters::ETX`). -/
def etx : Char := '\x03'

/-- `SkipBlankLines`, with explicit fuel for the while loop. -/
def skipBlankAux : Nat → TStream → TStream
  | 0, s => s
  | fuel + 1, s =>
    if tpeek s = some '\r' then skipBlankAux fuel (tgetline s).2 else s

/-- `SkipBlankLines(is)`: read lines while the next character is CR. -/
def skipBlankLines (s : TStream) : TStream :=
  skipBlankAux (s.data.length + 1) s

/-- Does a line start with `"$$"`? (`line.starts_with("$$")`). -/
def startsWithDollars : List Char → Bool
  | '$' :: '$' :: _ => true
  | _ => false

/-- Is `c` an upper-case letter (regex class `[A-Z]`)? -/
def isUpperAZ (c : Char) : Bool := 'A' ≤ c && c ≤ 'Z'

/-- Is `c` a digit (regex class `[0-9]`)? -/
def isDigit09 (c : Char) : Bool := '0' ≤ c && c ≤ '9'

/-- The tail of the UGC regex after `[A-Z]{2}[CZ]`: an optional group of
three digits, then `[->]` (backtracking disjunction). -/
def ugcTail (rest : List Char) : Bool :=
  (match rest with
   | d1 :: d2 :: d3 :: t :: _ =>
     isDigit09 d1 && isDigit09 d2 && isDigit09 d3 && (t = '-' || t = '>')
   | _ => false) ||
  (match rest with
   | t :: _ => t = '-' || t = '>'
   | [] => false)

/-- `regex_search` with `reUgcString`: `^[A-Z]{2}[CZ]([0-9]{3})?[->]`. -/
def matchUgc : List Char → Bool
  | c1 :: c2 :: c3 :: rest =>
    isUpperAZ c1 && isUpperAZ c2 && (c3 = 'C' || c3 = 'Z') && ugcTail rest
  | _ => false

/-- `regex_search` with `rePVtecString`: `^/[OTEX]\.`. -/
def matchPVtec : List Char → Bool
  | '/' :: k :: '.' :: _ => k = 'O' || k = 'T' || k = 'E' || k = 'X'
  | _ => false

/-- `regex_search` with `reHVtecString`: `^/[A-Z0-9]{5}\.`. -/
def matchHVtec : List Char → Bool
  | '/' :: a :: b :: c :: d :: e :: '.' :: _ =>
    (isUpperAZ a || isDigit09 a) && (isUpperAZ b || isDigit09 b) &&
    (isUpperAZ c || isDigit09 c) && (isUpperAZ d || isDigit09 d) &&
    (isUpperAZ e || isDigit09 e)
  | _ => false

/-- The `(AM|PM|UTC)` alternative of the date/time regex (preceded by the
mandatory space handled by the caller). -/
def ampmUtc (r : List Char) : Bool :=
  (match r with
   | a :: 'M' :: _ => a = 'A' || a = 'P'
   | _ => false) ||
  (match r with
   | 'U' :: 'T' :: 'C' :: _ => true
   | _ => false)

/-- `regex_search` with `reDateTimeString`: `^[0-9]{3,4} ([AP]M|UTC)`
(greedy `{3,4}` with backtracking). -/
def matchDateTime : List Char → Bool
  | d1 :: d2 :: d3 :: rest =>
    isDigit09 d1 && isDigit09 d2 && isDigit09 d3 &&
    ((match rest with
      | d4 :: ' ' :: r => isDigit09 d4 && ampmUtc r
      | _ => false) ||
     (match rest with
      | ' ' :: r => ampmUtc r
      | _ => false))
  | _ => false

/-- A segment-header VTEC entry.  `PVtec::Parse` lives in `pvtec.cpp`, which
is not among the sources under verification; modelled from the spec as
retaining the P-VTEC line. -/
structure Vtec where
  pVtec : List Char
  hVtec : List Char
deriving DecidableEq, Repr

/-- `SegmentHeader` of `text_product_message.cpp`. -/
structure SegmentHeader where
  ugcString : List Char
  vtecString : List Vtec
  ugcNames : List (List Char)
  issuanceDateTime : List Char
deriving DecidableEq, Repr

/-- `Segment` of `text_product_message.cpp`. -/
structure Segment where
  header : Option SegmentHeader
  productContent : List (List Char)
deriving DecidableEq, Repr

/-- `TryParseVtecString`: read a line; if it keys as a P-VTEC, optionally
consume one following H-VTEC line (rewinding one line on an H-VTEC miss);
otherwise rewind to the entry position and return no VTEC. -/
def tryParseVtecString (s : TStream) : Option Vtec × TStream :=
  let isBegin := s.pos
  let g := tgetline s
  if matchPVtec g.1 then
    let isBegin2 := g.2.pos
    let g2 := tgetline g.2
    if matchHVtec g2.1 then
      (some ⟨g.1, g2.1⟩, g2.2)
    else
      -- H-VTEC was not found: reset to the beginning of the line
      (some ⟨g.1, []⟩, seekTo g2.2 isBegin2)
  else
    -- P-VTEC was not found: reset to the original state
    (none, seekTo g.2 isBegin)

/-- The `while ((vtec = TryParseVtecString(is)) != std::nullopt)` loop. -/
def vtecLoop : Nat → TStream → List Vtec × TStream
  | 0, s => ([], s)
  | fuel + 1, s =>
    match tryParseVtecString s with
    | (some v, s') =>
      let r := vtecLoop fuel s'
      (v :: r.1, r.2)
    | (none, s') => ([], s')

/-- The UGC-names loop of `TryParseSegmentHeader`: read lines until a blank
line or eof, collecting non-date/time lines as UGC names and stopping at the
issuance date/time line.  Returns (names, issuance line, stream). -/
def ugcNamesLoop : Nat → TStream → List (List Char) × List Char × TStream
  | 0, s => ([], [], s)
  | fuel + 1, s =>
    if !s.eofbit && tpeek s ≠ some '\r' then
      let g := tgetline s
      if matchDateTime g.1 then ([], g.1, g.2)
      else
        let r := ugcNamesLoop fuel g.2
        (g.1 :: r.1, r.2.1, r.2.2)
    else ([], [], s)

/-- `TryParseSegmentHeader`: read a line; if it keys as a UGC string, parse
the VTEC list and the UGC names / issuance date-time; otherwise rewind to
the entry position and return no header. -/
def tryParseSegmentHeader (s : TStream) : Option SegmentHeader × TStream :=
  let isBegin := s.pos
  let g := tgetline s
  if matchUgc g.1 then
    let v := vtecLoop (g.2.data.length + 1) g.2
    let u := ugcNamesLoop (v.2.data.length + 1) v.2
    (some ⟨g.1, v.1, u.1, u.2.1⟩, u.2.2)
  else
    -- no valid segment header: reset the stream to the original state
    (none, seekTo g.2 isBegin)

/-- The line-collecting loop of `TryParseMndHeader`. -/
def mndLoop : Nat → TStream → List (List Char) × TStream
  | 0, s => ([], s)
  | fuel + 1, s =>
    if !s.eofbit && tpeek s ≠ some '\r' then
      let g := tgetline s
      let r := mndLoop fuel g.2
      (g.1 :: r.1, r.2)
    else ([], s)

/-- `TryParseMndHeader`: read lines until a blank line; accept only if the
last line is an issuance date/time line, otherwise rewind. -/
def tryParseMndHeader (s : TStream) : List (List Char) × TStream :=
  let isBegin := s.pos
  let l := mndLoop (s.data.length + 1) s
  let mnd := if l.1 ≠ [] ∧ ¬matchDateTime (l.1.getLastD []) then [] else l.1
  if mnd = [] then
    -- MND header was not found: reset the stream to the original state
    ([], seekTo l.2 isBegin)
  else (mnd, l.2)

/-- `TryParseEndOfProduct`: an ETX or EOF, or an optional forecast-identifier
line (and blank lines) followed by ETX or EOF; on a miss, rewind to the
entry position. -/
def tryParseEndOfProduct (s : TStream) : Bool × TStream :=
  let isBegin := s.pos
  let e1 : Bool × TStream :=
    if tpeek s = some etx then (true, tconsume s)
    else if tpeek s = none then (true, { s with eofbit := true })
    else (false, s)
  if e1.1 then (true, e1.2)
  else
    -- optional Forecast Identifier
    let g := tgetline e1.2
    let s2 := skipBlankLines g.2
    if tpeek s2 = some etx then (true, tconsume s2)
    else if tpeek s2 = none then (true, { s2 with eofbit := true })
    else
      -- End of Product was not found: reset to the original state
      (false, seekTo s2 isBegin)

/-- The product-content loop of `ParseProductContent`: lines until eof or
ETX, with a line starting `"$$"` pushed and then ending the loop. -/
def contentLoop : Nat → TStream → List (List Char) × TStream
  | 0, s => ([], s)
  | fuel + 1, s =>
    if !s.eofbit && tpeek s ≠ some etx then
      let g := tgetline s
      if startsWithDollars g.1 then ([g.1], g.2)
      else
        let r := contentLoop fuel g.2
        (g.1 :: r.1, r.2)
    else ([], s)

/-- Remove trailing empty lines (the trailing `pop_back` loop). -/
def dropTrailingEmpty (l : List (List Char)) : List (List Char) :=
  (l.reverse.dropWhile List.isEmpty).reverse

/-- `ParseProductContent`. -/
def parseProductContent (s : TStream) : List (List Char) × TStream :=
  let r := contentLoop (s.data.length + 1) s
  (dropTrailingEmpty r.1, r.2)

/-- The segment iterations `i ≥ 1` of `TextProductMessage::Parse`. -/
def parseLoopAux : Nat → TStream → List Segment × TStream
  | 0, s => ([], s)
  | fuel + 1, s =>
    if s.eofbit then ([], s)
    else
      let e := tryParseEndOfProduct s
      if e.1 then ([], e.2)
      else
        let h := tryParseSegmentHeader e.2
        let s1 := skipBlankLines h.2
        let c := parseProductContent s1
        let s2 := skipBlankLines c.2
        let seg := if h.1.isSome || !c.1.isEmpty then [Segment.mk h.1 c.1] else []
        let r := parseLoopAux fuel s2
        (seg ++ r.1, r.2)

/-- `TextProductMessage::Parse`.  `WmoHeader::Parse` lives in
`wmo_header.cpp`, which is not among the sources under verification;
modelled from the spec: it consumes the WMO header at the top of the product
and reports validity, so this function takes the stream already positioned
after the WMO header together with the WMO result `wmoValid`.  Returns
`(dataValid, mndHeader, segments)`. -/
def textProductParse (wmoValid : Bool) (s : TStream) :
    Bool × List (List Char) × List Segment :=
  if !wmoValid then (false, [], [])
  else if s.eofbit then (true, [], [])
  else
    -- iteration i = 0
    let h0 : Option SegmentHeader × TStream :=
      if tpeek s ≠ some '\r' then tryParseSegmentHeader s else (none, s)
    let s1 := skipBlankLines h0.2
    let mnd := tryParseMndHeader s1
    let s2 := skipBlankLines mnd.2
    let h1 : Option SegmentHeader × TStream :=
      match h0.1 with
      | some h => (some h, s2)
      | none =>
        let r := tryParseSegmentHeader s2
        (r.1, skipBlankLines r.2)
    let c0 := parseProductContent h1.2
    let s3 := skipBlankLines c0.2
    let seg0 : List Segment :=
      if h1.1.isSome || !c0.1.isEmpty then [Segment.mk h1.1 c0.1] else []
    let rest := parseLoopAux (s3.data.length + 2) s3
    (true, mnd.1, seg0 ++ rest.1)

/-! ## Provider refresh state machine (`radar_product_manager.cpp`) -/

/-- `common::RadarProductGroup`. -/
inductive RadarProductGroup
  | Level2
  | Level3
deriving DecidableEq, Repr

/-- The state of a `ProviderManager` that the refresh logic touches:
identification fields and the `refreshEnabled_` flag. -/
structure ProviderManager where
  radarId : String
  group : RadarProductGroup
  product : String
  refreshEnabled : Bool
deriving DecidableEq, Repr

/-- The `ProviderManager` constructor: `refreshEnabled_ {false}`. -/
def ProviderManager.init (radarId : String) (group : RadarProductGroup)
    (product : String) : ProviderManager :=
  { radarId, group, product, refreshEnabled := false }

/-- `kRetryInterval_` (15 s), in milliseconds. -/
def kRetryIntervalMs : Int := 15000

/-- The outcome of one `RadarProductManagerImpl::RefreshData` body:
the `NewDataAvailable` signal (if emitted, with its payload), the updated
manager, and the interval the single-shot refresh timer was armed with
(`none` when the timer was not re-armed). -/
structure RefreshOutcome where
  newDataEvent : Option (RadarProductGroup × String × Int)
  manager : ProviderManager
  armedInterval : Option Int
deriving DecidableEq, Repr

/-- The body of `RadarProductManagerImpl::RefreshData` after
`provider_->Refresh()` returned `(newObjects, totalObjects)`.
`latestTimeMs` is `GetTimePointByKey(FindLatestKey())`, `updatePeriodMs` is
`provider_->update_period()` and `elapsedMs` is
`system_clock::now() - provider_->last_modified()`, all in milliseconds. -/
def refreshData (pm : ProviderManager) (newObjects totalObjects : Nat)
    (latestTimeMs updatePeriodMs elapsedMs : Int) : RefreshOutcome :=
  -- std::chrono::milliseconds interval = kRetryInterval_;
  let interval : Int :=
    if 0 < newObjects then
      -- interval = updatePeriod - (now - lastModified), floored at retry
      let i := updatePeriodMs - elapsedMs
      if i < kRetryIntervalMs then kRetryIntervalMs else i
    else kRetryIntervalMs
  let newDataEvent :=
    if 0 < newObjects then some (pm.group, pm.product, latestTimeMs) else none
  -- else if (refreshEnabled_ && totalObjects == 0) refreshEnabled_ = false;
  let refreshEnabled :=
    if 0 < newObjects then pm.refreshEnabled
    else if pm.refreshEnabled ∧ totalObjects = 0 then false
    else pm.refreshEnabled
  -- if (refreshEnabled_) arm the timer with `interval`
  let armedInterval := if refreshEnabled then some interval else none
  { newDataEvent
  , manager := { pm with refreshEnabled }
  , armedInterval }

/-- `RadarProductManagerImpl::EnableRefresh`: toggle the flag when it
changes, and issue `RefreshData` when it was just enabled.  Returns the
updated manager and whether a `RefreshData` was issued. -/
def enableRefresh (pm : ProviderManager) (enabled : Bool) :
    ProviderManager × Bool :=
  if pm.refreshEnabled ≠ enabled then
    ({ pm with refreshEnabled := enabled }, enabled)
  else (pm, false)

/-! ## Record caches (`radar_product_manager.cpp`) -/

/-- `types::RadarProductRecord`: the fields the manager uses.  `timeMs` is
the record time in milliseconds; `level2StartTimeMs` is
`record->level2_file()->start_time()` (the `Level2File` itself is outside
the sources under verification, so its start time is carried as a field). -/
structure RadarProductRecord where
  timeMs : Nat
  group : RadarProductGroup
  product : String
  radarId : String
  level2StartTimeMs : Nat
deriving DecidableEq, Repr

/-- The key used by `StoreRadarProductRecord`:
`time_point_cast<seconds>(record->time())`, i.e. the time truncated to a
whole second (kept in milliseconds so keys and query times compare). -/
def truncKey (timeMs : Nat) : Nat := timeMs / 1000 * 1000

/-- `std::map::find` on a key-sorted association list. -/
def mapFind {α : Type} : List (Nat × α) → Nat → Option α
  | [], _ => none
  | (k, v) :: r, q => if k = q then some v else mapFind r q

/-- `map[key] = value` for a fresh key: insert keeping the keys sorted. -/
def mapInsert {α : Type} : List (Nat × α) → Nat → α → List (Nat × α)
  | [], k, v => [(k, v)]
  | (k', v') :: r, k, v =>
    if k < k' then (k, v) :: (k', v') :: r
    else if k = k' then (k, v) :: r
    else (k', v') :: mapInsert r k v

/-- `unordered_map` lookup on an association list. -/
def assocFind {α : Type} : List (String × α) → String → Option α
  | [], _ => none
  | (k, v) :: r, q => if k = q then some v else assocFind r q

/-- `unordered_map` `operator[]` assignment: replace or append. -/
def assocSet {α : Type} : List (String × α) → String → α → List (String × α)
  | [], k, v => [(k, v)]
  | (k', v') :: r, k, v =>
    if k' = k then (k, v) :: r else (k', v') :: assocSet r k v

/-- An ordered `time → record` map (`RadarProductRecordMap`). -/
abbrev RadarProductRecordMap := List (Nat × RadarProductRecord)

/-- The two record caches of a `RadarProductManagerImpl`. -/
structure RadarProductCache where
  level2ProductRecords : RadarProductRecordMap
  level3ProductRecordsMap : List (String × RadarProductRecordMap)
deriving DecidableEq, Repr

/-- `RadarProductManagerImpl::StoreRadarProductRecord`: deduplicate by the
seconds-truncated record time in the cache selected by the product group.
Returns the stored record (the existing one on a duplicate) and the updated
caches.  (On the duplicate Level-3 path the `operator[]` access touches an
entry that is already present, so the cache is unchanged.) -/
def storeRadarProductRecord (c : RadarProductCache) (r : RadarProductRecord) :
    RadarProductRecord × RadarProductCache :=
  let tkey := truncKey r.timeMs
  match r.group with
  | RadarProductGroup.Level2 =>
    match mapFind c.level2ProductRecords tkey with
    | some prev => (prev, c)
    | none =>
      (r, { c with level2ProductRecords :=
              mapInsert c.level2ProductRecords tkey r })
  | RadarProductGroup.Level3 =>
    let productMap := (assocFind c.level3ProductRecordsMap r.product).getD []
    match mapFind productMap tkey with
    | some prev => (prev, c)
    | none =>
      (r, { c with level3ProductRecordsMap :=
              (assocSet c.level3ProductRecordsMap r.product
                (mapInsert productMap tkey r)) })

/-- `util::GetBoundedElementValue` (declared in `scwx/util/map.hpp`, not in
the sources under verification): modelled from the spec as the value at the
greatest key `≤ t` of the sorted map, or `none` if every key exceeds `t`. -/
def getBoundedElementValue {α : Type} : List (Nat × α) → Nat → Option α
  | [], _ => none
  | (k, v) :: rest, t =>
    if k ≤ t then some ((getBoundedElementValue rest t).getD v) else none

/-- `RadarProductManagerImpl::GetLevel2ProductRecord`.  A
default-constructed `time_point` is the epoch, modelled as `0`. -/
def getLevel2ProductRecord (m : RadarProductRecordMap) (t : Nat) :
    Option RadarProductRecord :=
  if ¬m.isEmpty ∧ t = 0 then
    -- a default-initialized time point: return the latest record (rbegin)
    (m.getLast?).map Prod.snd
  else
    match getBoundedElementValue m t with
    | some r =>
      -- does the record contain the time we are looking for?
      if t < r.level2StartTimeMs then none else some r
    | none => none

/-! ## Geodesic coordinate builder (`RadarProductManager::Initialize`) -/

/-- `common::MAX_DATA_MOMENT_GATES`.  Modelled from the spec:
`scwx/common/constants.hpp` is not in the sources under verification; the
spec fixes 1840 range gates. -/
def MAX_DATA_MOMENT_GATES : Nat := 1840

/-- `common::MAX_0_5_DEGREE_RADIALS`.  Modelled from the spec: 0.5-degree
azimuth resolution over 360 degrees gives 720 radials. -/
def MAX_0_5_DEGREE_RADIALS : Nat := 720

/-- `common::MAX_1_DEGREE_RADIALS`.  Modelled from the spec: 1-degree
azimuth resolution over 360 degrees gives 360 radials. -/
def MAX_1_DEGREE_RADIALS : Nat := 360

/-- `NUM_RADIAL_GATES_0_5_DEGREE`. -/
def NUM_RADIAL_GATES_0_5_DEGREE : Nat :=
  MAX_0_5_DEGREE_RADIALS * MAX_DATA_MOMENT_GATES

/-- `NUM_RADIAL_GATES_1_DEGREE`. -/
def NUM_RADIAL_GATES_1_DEGREE : Nat :=
  MAX_1_DEGREE_RADIALS * MAX_DATA_MOMENT_GATES

/-- The radar site fields `Initialize` uses (`config::RadarSite`). -/
structure RadarSite where
  latitude : ℚ
  longitude : ℚ
  siteType : String

/-- `RadarProductManager::gate_size()`: 150 m for TDWR sites, 250 m
otherwise.  The angles and ranges below are small multiples of 0.25 well
inside the range where `float` arithmetic is exact, so they are carried as
rationals. -/
def gate_size (site : RadarSite) : ℚ :=
  if site.siteType = "tdwr" then 150 else 250

/-- `GeographicLib::Geodesic::Direct` on the WGS-84 ellipsoid, used as an
external capability.  Modelled from the spec: GeographicLib is outside the
sources under verification, so the builder is parametrised by the direct
geodesic map `(lat, lon, azimuth, range) ↦ (lat, lon)`. -/
abbrev GeodesicDirect := ℚ → ℚ → ℚ → ℚ → ℚ × ℚ

/-- The 0.5-degree coordinate array of `RadarProductManager::Initialize`:
for each radial gate, latitude at offset `2 ·radialGate` and longitude at
offset `2·radialGate + 1`, from the direct geodesic at azimuth
`radial · 0.5 − 0.25` and range `(gate + 1) · gate_size`. -/
def coordinates0_5Degree (geodesic : GeodesicDirect) (site : RadarSite) :
    List ℚ :=
  (List.range (NUM_RADIAL_GATES_0_5_DEGREE * 2)).map (fun idx =>
    let radialGate := idx / 2
    let gate := radialGate % MAX_DATA_MOMENT_GATES
    let radial := radialGate / MAX_DATA_MOMENT_GATES
    let angle : ℚ := (radial : ℚ) * (1 / 2) - 1 / 4   -- 0.5 degree radial
    let range : ℚ := ((gate : ℚ) + 1) * gate_size site
    let c := geodesic site.latitude site.longitude angle range
    if idx % 2 = 0 then c.1 else c.2)

/-- The 1-degree coordinate array of `RadarProductManager::Initialize`:
azimuth `radial · 1.0 − 0.5`, same ranges. -/
def coordinates1Degree (geodesic : GeodesicDirect) (site : RadarSite) :
    List ℚ :=
  (List.range (NUM_RADIAL_GATES_1_DEGREE * 2)).map (fun idx =>
    let radialGate := idx / 2
    let gate := radialGate % MAX_DATA_MOMENT_GATES
    let radial := radialGate / MAX_DATA_MOMENT_GATES
    let angle : ℚ := (radial : ℚ) * 1 - 1 / 2          -- 1 degree radial
    let range : ℚ := ((gate : ℚ) + 1) * gate_size site
    let c := geodesic site.latitude site.longitude angle range
    if idx % 2 = 0 then c.1 else c.2)

/-! ## Helper lemmas -/

/-- Flooring at `kRetryIntervalMs` is a `max`. -/
lemma ite_lt_eq_max (x k : Int) : (if x < k then k else x) = max x k := by
  rcases lt_or_le x k with h | h
  · simp [h, max_eq_right h.le]
  · simp [not_lt.2 h, max_eq_left h]

/-- A `mapInsert` is found back at its key. -/
lemma mapFind_mapInsert_self {α : Type} (m : List (Nat × α)) (k : Nat)
    (v : α) : mapFind (mapInsert m k v) k = some v := by
  induction m with
  | nil => simp [mapInsert, mapFind]
  | cons p r ih =>
    obtain ⟨k', v'⟩ := p
    unfold mapInsert
    by_cases h1 : k < k'
    · simp [h1, mapFind]
    · by_cases h2 : k = k'
      · simp [h1, h2, mapFind]
      · have h3 : ¬k' = k := fun hh => h2 hh.symm
        simp [h1, h2, mapFind, h3, ih]

/-- A `mapInsert` leaves every other key unchanged. -/
lemma mapFind_mapInsert_ne {α : Type} (m : List (Nat × α)) (k : Nat) (v : α)
    (q : Nat) (h : q ≠ k) : mapFind (mapInsert m k v) q = mapFind m q := by
  have hkq : ¬k = q := fun hh => h hh.symm
  induction m with
  | nil => simp [mapInsert, mapFind, hkq]
  | cons p r ih =>
    obtain ⟨k', v'⟩ := p
    by_cases h1 : k < k'
    · simp only [mapInsert, if_pos h1]
      simp [mapFind, hkq]
    · by_cases h2 : k = k'
      · have hk'q : ¬k' = q := fun hh => hkq (h2.trans hh)
        simp only [mapInsert, if_neg h1, if_pos h2]
        simp [mapFind, hkq, hk'q]
      · simp only [mapInsert, if_neg h1, if_neg h2]
        unfold mapFind
        by_cases h4 : k' = q
        · simp [h4]
        · simp [h4, ih]

/-- An `assocSet` is found back at its key. -/
lemma assocFind_assocSet_self {α : Type} (m : List (String × α))
    (k : String) (v : α) : assocFind (assocSet m k v) k = some v := by
  induction m with
  | nil => simp [assocSet, assocFind]
  | cons p r ih =>
    obtain ⟨k', v'⟩ := p
    unfold assocSet
    by_cases h1 : k' = k
    · simp [h1, assocFind]
    · simp [h1, assocFind, ih]

/-- `getBoundedElementValue` finds nothing when every key exceeds `t`. -/
lemma getBoundedElementValue_eq_none {α : Type} :
    ∀ (m : List (Nat × α)) (t : Nat), (∀ p ∈ m, t < p.1) →
    getBoundedElementValue m t = none
  | [], _, _ => rfl
  | (k, v) :: rest, t, h => by
    have hk : t < k := h (k, v) (List.mem_cons_self _ _)
    unfold getBoundedElementValue
    rw [if_neg (by omega)]

/-- On a key-sorted map, `getBoundedElementValue` returns the value at the
greatest key `≤ t`. -/
lemma getBoundedElementValue_eq_greatest {α : Type} :
    ∀ (m : List (Nat × α)) (t k : Nat) (v : α),
    m.Pairwise (fun a b => a.1 < b.1) → (k, v) ∈ m → k ≤ t →
    (∀ p ∈ m, p.1 ≤ t → p.1 ≤ k) → getBoundedElementValue m t = some v
  | [], _, _, _, _, hmem, _, _ => absurd hmem (List.not_mem_nil _)
  | (k0, v0) :: rest, t, k, v, hs, hmem, hk, hmax => by
    obtain ⟨hhead, hs'⟩ := List.pairwise_cons.mp hs
    rcases List.mem_cons.mp hmem with heq | hmem'
    · injection heq with hek hev
      subst hek
      subst hev
      unfold getBoundedElementValue
      rw [if_pos hk]
      have hrest : ∀ p ∈ rest, t < p.1 := by
        intro p hp
        have h1 := hhead p hp
        by_contra hnot
        have h2 := hmax p (List.mem_cons_of_mem _ hp) (by omega)
        omega
      rw [getBoundedElementValue_eq_none rest t hrest]
      rfl
    · have hk0 : k0 < k := hhead (k, v) hmem'
      unfold getBoundedElementValue
      rw [if_pos (by omega)]
      rw [getBoundedElementValue_eq_greatest rest t k v hs' hmem' hk
        (fun p hp hpt => hmax p (List.mem_cons_of_mem _ hp) hpt)]
      rfl

/-- On a key-sorted non-empty map, the last entry carries the greatest
key. -/
lemma sorted_getLast_greatest {α : Type} :
    ∀ (m : List (Nat × α)), m.Pairwise (fun a b => a.1 < b.1) → m ≠ [] →
    ∃ k v, m.getLast? = some (k, v) ∧ (k, v) ∈ m ∧ ∀ p ∈ m, p.1 ≤ k
  | [], _, hne => absurd rfl hne
  | [p], _, _ => ⟨p.1, p.2, by simp, by simp, by simp⟩
  | p :: q :: rest, hs, _ => by
    obtain ⟨hhead, hs'⟩ := List.pairwise_cons.mp hs
    obtain ⟨k, v, hlast, hmem, hbound⟩ :=
      sorted_getLast_greatest (q :: rest) hs' (by simp)
    refine ⟨k, v, ?_, List.mem_cons_of_mem _ hmem, ?_⟩
    · rw [List.getLast?_cons_cons]
      exact hlast
    · intro r hr
      rcases List.mem_cons.mp hr with h | h
      · subst h
        exact (hhead (k, v) hmem).le
      · exact hbound r h

/-- An `assocSet` leaves every other key unchanged. -/
lemma assocFind_assocSet_ne {α : Type} (m : List (String × α)) (k : String)
    (v : α) (q : String) (h : q ≠ k) :
    assocFind (assocSet m k v) q = assocFind m q := by
  have hkq : ¬k = q := fun hh => h hh.symm
  induction m with
  | nil => simp [assocSet, assocFind, hkq]
  | cons p r ih =>
    obtain ⟨k', v'⟩ := p
    by_cases h1 : k' = k
    · have hk'q : ¬k' = q := by rw [h1]; exact hkq
      simp only [assocSet, if_pos h1]
      simp [assocFind, hkq, hk'q]
    · simp only [assocSet, if_neg h1]
      unfold assocFind
      by_cases h2 : k' = q
      · simp [h2]
      · simp [h2, ih]

end Scwx

namespace Scwx

/-! ## Claims -/

/-- C1: For every input byte stream, if the byte-swapped `data_block_count`
decoded at offset 30 is less than 4 or greater than 10, or the
`compression_indicator` decoded at offset 16 is non-zero, then
`DigitalRadarData::Parse` returns failure and the resulting record's
`data_block_count` is 0 (cleared in the partially built record). -/
theorem parse_invalid_header_fails (d : List Byte) (pos : Nat) (vr : Bool)
    (h : swap16 (readU16LE d (pos + 30)) < 4 ∨
         10 < swap16 (readU16LE d (pos + 30)) ∨
         readU8 d (pos + 16) ≠ 0) :
    (DigitalRadarData.parse d pos vr).1 = false ∧
    (DigitalRadarData.parse d pos vr).2.dataBlockCount = 0 := by
  unfold DigitalRadarData.parse
  by_cases hc : readU8 d (pos + 16) ≠ 0
  · simp [hc]
  · have hcnt : swap16 (readU16LE d (pos + 30)) < 4 ∨
        10 < swap16 (readU16LE d (pos + 30)) := by
      rcases h with h | h | h
      · exact Or.inl h
      · exact Or.inr h
      · exact absurd h hc
    simp [hc, hcnt]

/-- Witness for C1: the empty stream decodes `data_block_count = 0 < 4`,
and `Parse` fails with the count cleared. -/
theorem parse_invalid_header_fails_witness :
    (DigitalRadarData.parse [] 0 true).1 = false ∧
    (DigitalRadarData.parse [] 0 true).2.dataBlockCount = 0 :=
  parse_invalid_header_fails [] 0 true (by decide)

/-- C2: For every moment data block whose decoded `n_gates` is at most 1840:
if `word_size == 8` the decoder reads exactly `n_gates` additional bytes
(the final stream position is the entry position plus the 24 fixed header
bytes plus `n_gates`) into the 8-bit gate vector; if `word_size == 16` it
reads exactly `n_gates × 2` additional bytes into the 16-bit gate vector and
byte-swaps each element; for any other `word_size` it reads zero additional
gate bytes and leaves both gate vectors empty. -/
theorem momentDataBlock_create_gate_reads (dbt : List Byte) (dn : String)
    (d : List Byte) (pos : Nat)
    (hn : swap16 (readU16LE d (pos + 4)) ≤ 1840) :
    (readU8 d (pos + 15) = 8 →
      (MomentDataBlock.create dbt dn d pos).2 =
        pos + 24 + swap16 (readU16LE d (pos + 4)) ∧
      (MomentDataBlock.create dbt dn d pos).1.momentGates8 =
        (List.range (swap16 (readU16LE d (pos + 4)))).map
          (fun i => readU8 d (pos + 24 + i)) ∧
      (MomentDataBlock.create dbt dn d pos).1.momentGates16 = []) ∧
    (readU8 d (pos + 15) = 16 →
      (MomentDataBlock.create dbt dn d pos).2 =
        pos + 24 + 2 * swap16 (readU16LE d (pos + 4)) ∧
      (MomentDataBlock.create dbt dn d pos).1.momentGates16 =
        (List.range (swap16 (readU16LE d (pos + 4)))).map
          (fun i => swap16 (readU16LE d (pos + 24 + 2 * i))) ∧
      (MomentDataBlock.create dbt dn d pos).1.momentGates8 = []) ∧
    (readU8 d (pos + 15) ≠ 8 → readU8 d (pos + 15) ≠ 16 →
      (MomentDataBlock.create dbt dn d pos).2 = pos + 24 ∧
      (MomentDataBlock.create dbt dn d pos).1.momentGates8 = [] ∧
      (MomentDataBlock.create dbt dn d pos).1.momentGates16 = []) := by
  refine ⟨fun h8 => ?_, fun h16 => ?_, fun h8 h16 => ?_⟩
  · simp [MomentDataBlock.create, if_pos hn, h8]
  · simp [MomentDataBlock.create, if_pos hn, h16]
  · simp [MomentDataBlock.create, if_pos hn, h8, h16]

/-- A concrete moment-block byte stream for the C2 witness: bytes 4-5
(big-endian `n_gates`) decode to 2, byte 15 (`word_size`) is 8, and the two
gate bytes at offsets 24 and 25 are 7 and 9. -/
def momentWitnessData : List Byte :=
  [0, 0, 0, 0, 0, 2, 0, 0, 0, 0, 0, 0, 0, 0, 0, 8,
   0, 0, 0, 0, 0, 0, 0, 0, 7, 9]

/-- Witness for C2: a concrete 28-byte block with `n_gates = 2`,
`word_size = 8` and gate bytes 7 and 9. -/
theorem momentDataBlock_create_gate_reads_witness :
    (MomentDataBlock.create [] ("REF") momentWitnessData 0).2 = 26 ∧
    (MomentDataBlock.create [] ("REF") momentWitnessData 0).1.momentGates8 =
      (List.range 2).map (fun i => readU8 momentWitnessData (24 + i)) ∧
    (MomentDataBlock.create [] ("REF") momentWitnessData 0).1.momentGates16 = [] :=
  (momentDataBlock_create_gate_reads [] ("REF") momentWitnessData 0
    (by decide)).1 (by decide)

/-- C3 counterexample: a completed refresh with zero new objects but a
non-zero total re-arms the timer with the fixed 15-second retry interval,
not `max(update_period − elapsed, 15 s)` (here the update period is 300 s
and no time has elapsed since the last modification). -/
theorem refreshData_retry_interval_not_update_period :
    (refreshData ⟨("KLSX"), RadarProductGroup.Level2, (""), true⟩
        0 1 0 300000 0).armedInterval = some kRetryIntervalMs ∧
    kRetryIntervalMs ≠ max ((300000 : Int) - 0) kRetryIntervalMs := by
  constructor
  · rfl
  · decide

/-- C3 (amended): whenever a completed refresh leaves `refresh_enabled`
true and re-arms the refresh timer, the armed interval equals
`max(update_period − (now − last_modified), 15 s)` when the refresh
discovered new objects, and the fixed 15-second retry interval when it
discovered zero new objects. -/
theorem refreshData_armed_interval (pm : ProviderManager)
    (newObjects totalObjects : Nat) (lt up el i : Int)
    (h : (refreshData pm newObjects totalObjects lt up el).armedInterval =
         some i) :
    i = if 0 < newObjects then max (up - el) kRetryIntervalMs
        else kRetryIntervalMs := by
  unfold refreshData at h
  by_cases hn : 0 < newObjects
  · simp only [hn, if_true] at h ⊢
    rw [ite_lt_eq_max] at h
    split at h
    · injection h with h
      exact h.symm
    · exact Option.noConfusion h
  · simp only [hn, if_false] at h ⊢
    by_cases he : pm.refreshEnabled = true ∧ totalObjects = 0
    · simp [he] at h
    · simp only [he, if_false] at h
      by_cases hb : pm.refreshEnabled = true
      · simp [hb] at h
        exact h.symm
      · simp [hb] at h

/-- Witness for C3's amended theorem: a refresh that found one new object
with a 300 s update period and nothing elapsed arms the timer with 300 s. -/
theorem refreshData_armed_interval_witness :
    (300000 : Int) =
      if 0 < (1 : Nat) then max ((300000 : Int) - 0) kRetryIntervalMs
      else kRetryIntervalMs :=
  refreshData_armed_interval
    ⟨("KLSX"), RadarProductGroup.Level2, (""), true⟩ 1 5 0 300000 0 300000
    (by decide)

/-- C4: a `ProviderManager` publishes
`NewDataAvailable(group, product, latest_time)` after a completed refresh
if and only if that refresh discovered `new_objects > 0`; in particular, no
`NewDataAvailable` is emitted for a refresh that discovered zero new
objects. -/
theorem refreshData_newDataAvailable_iff (pm : ProviderManager)
    (newObjects totalObjects : Nat) (lt up el : Int) :
    (refreshData pm newObjects totalObjects lt up el).newDataEvent =
      some (pm.group, pm.product, lt) ↔ 0 < newObjects := by
  unfold refreshData
  by_cases hn : 0 < newObjects <;> simp [hn]

/-- C5: `refresh_enabled` is false at `ProviderManager` construction; a
refresh completing with `(new = 0, total = 0)` while refresh is enabled
clears `refresh_enabled` and does not re-arm the refresh timer; and a
subsequent `enable_refresh(true)` call issues a new `RefreshData`. -/
theorem providerManager_zero_total_disables :
    (∀ (rid : String) (g : RadarProductGroup) (prod : String),
       (ProviderManager.init rid g prod).refreshEnabled = false) ∧
    (∀ (pm : ProviderManager) (lt up el : Int), pm.refreshEnabled = true →
       (refreshData pm 0 0 lt up el).manager.refreshEnabled = false ∧
       (refreshData pm 0 0 lt up el).armedInterval = none) ∧
    (∀ pm : ProviderManager, pm.refreshEnabled = false →
       (enableRefresh pm true).2 = true) := by
  refine ⟨fun rid g prod => rfl, fun pm lt up el h => ?_, fun pm h => ?_⟩
  · unfold refreshData
    simp [h]
  · unfold enableRefresh
    simp [h]

/-- Witness for C5: a concrete enabled manager is disabled with no timer
armed by a `(0, 0)` refresh, and a concrete disabled manager issues a
refresh on `enable_refresh(true)`. -/
theorem providerManager_zero_total_disables_witness :
    ((refreshData ⟨("KLSX"), RadarProductGroup.Level2, (""), true⟩
        0 0 0 60000 0).manager.refreshEnabled = false) ∧
    ((refreshData ⟨("KLSX"), RadarProductGroup.Level2, (""), true⟩
        0 0 0 60000 0).armedInterval = none) ∧
    ((enableRefresh ⟨("KLSX"), RadarProductGroup.Level2, (""), false⟩
        true).2 = true) :=
  ⟨(providerManager_zero_total_disables.2.1 _ 0 60000 0 rfl).1,
   (providerManager_zero_total_disables.2.1 _ 0 60000 0 rfl).2,
   providerManager_zero_total_disables.2.2 _ rfl⟩

/-- C6: record storage deduplicates by seconds-truncated time: for every
record whose time truncates to whole second `s`, if the appropriate cache
(the Level-2 map, or the per-product Level-3 map) already holds an entry at
key `s`, `StoreRadarProductRecord` returns the previously stored record and
leaves the caches unchanged; otherwise it stores the record at key `s`
(leaving all other keys, the other cache, and other products' maps
unchanged) and returns it. -/
theorem storeRadarProductRecord_dedup (c : RadarProductCache)
    (r : RadarProductRecord) :
    (r.group = RadarProductGroup.Level2 →
      (∀ prev,
        mapFind c.level2ProductRecords (truncKey r.timeMs) = some prev →
        storeRadarProductRecord c r = (prev, c)) ∧
      (mapFind c.level2ProductRecords (truncKey r.timeMs) = none →
        (storeRadarProductRecord c r).1 = r ∧
        mapFind (storeRadarProductRecord c r).2.level2ProductRecords
          (truncKey r.timeMs) = some r ∧
        (∀ q, q ≠ truncKey r.timeMs →
          mapFind (storeRadarProductRecord c r).2.level2ProductRecords q =
            mapFind c.level2ProductRecords q) ∧
        (storeRadarProductRecord c r).2.level3ProductRecordsMap =
          c.level3ProductRecordsMap)) ∧
    (r.group = RadarProductGroup.Level3 →
      (∀ prev,
        mapFind ((assocFind c.level3ProductRecordsMap r.product).getD [])
          (truncKey r.timeMs) = some prev →
        storeRadarProductRecord c r = (prev, c)) ∧
      (mapFind ((assocFind c.level3ProductRecordsMap r.product).getD [])
          (truncKey r.timeMs) = none →
        (storeRadarProductRecord c r).1 = r ∧
        mapFind
          ((assocFind (storeRadarProductRecord c r).2.level3ProductRecordsMap
              r.product).getD [])
          (truncKey r.timeMs) = some r ∧
        (∀ q, q ≠ truncKey r.timeMs →
          mapFind
            ((assocFind
                (storeRadarProductRecord c r).2.level3ProductRecordsMap
                r.product).getD []) q =
          mapFind ((assocFind c.level3ProductRecordsMap r.product).getD [])
            q) ∧
        (∀ p, p ≠ r.product →
          assocFind (storeRadarProductRecord c r).2.level3ProductRecordsMap
            p = assocFind c.level3ProductRecordsMap p) ∧
        (storeRadarProductRecord c r).2.level2ProductRecords =
          c.level2ProductRecords)) := by
  constructor
  · intro hg
    constructor
    · intro prev hfind
      simp [storeRadarProductRecord, hg, hfind]
    · intro hfind
      simp [storeRadarProductRecord, hg, hfind, mapFind_mapInsert_self]
      exact fun q hq => mapFind_mapInsert_ne _ _ _ _ hq
  · intro hg
    constructor
    · intro prev hfind
      simp [storeRadarProductRecord, hg, hfind]
    · intro hfind
      simp only [storeRadarProductRecord, hg, hfind]
      refine ⟨by trivial, ?_, ?_, ?_, by trivial⟩
      · simp [assocFind_assocSet_self, mapFind_mapInsert_self]
      · intro q hq
        simp only [assocFind_assocSet_self, Option.getD_some]
        exact mapFind_mapInsert_ne _ _ _ _ hq
      · intro p hp
        simp [assocFind_assocSet_ne _ _ _ _ hp]

/-- A concrete Level-2 record stored at second 1 (1500 ms). -/
def recordA : RadarProductRecord :=
  ⟨1500, RadarProductGroup.Level2, "", "KLSX", 0⟩

/-- A concrete Level-2 record whose time 1999 ms truncates to the same
second as `recordA`. -/
def recordB : RadarProductRecord :=
  ⟨1999, RadarProductGroup.Level2, "", "KLSX", 0⟩

/-- A cache already holding `recordA` at its seconds-truncated key. -/
def cacheA : RadarProductCache := ⟨[(1000, recordA)], []⟩

/-- Witness for C6: inserting `recordB`, whose time differs from
`recordA`'s by less than a second, returns the previously stored `recordA`
and leaves the cache unchanged. -/
theorem storeRadarProductRecord_dedup_witness :
    storeRadarProductRecord cacheA recordB = (recordA, cacheA) :=
  ((storeRadarProductRecord_dedup cacheA recordB).1 rfl).1 recordA (by rfl)

/-- The S3 text-product stream, positioned after the WMO header: the UGC
line `KSTL-`, one P-VTEC line, an issuance date-time line, a body line,
a `$$` line, and ETX, with AWIPS CR CR LF line endings. -/
def s3TextAfterWmoHeader : TStream :=
  ⟨("KSTL-\r\r\n/O.NEW.KSTL.SV.W.0001.250101T0000Z-250101T0100Z/\r\r\n1200 PM CST MON JAN 01 2025\r\r\nBODY\r\r\n$$\r\r\n\x03").data,
   0, false⟩

/-- C7 counterexample: parsing the S3 text product yields exactly one
segment, but its header is absent (the line `KSTL-` does not match the UGC
keying regex `^[A-Z]{2}[CZ]([0-9]{3})?[->]`, whose third character must be
`C` or `Z`), and its product content is not `["BODY"]`. -/
theorem textProductParse_s3_no_header :
    ((textProductParse true s3TextAfterWmoHeader).2.2.map Segment.header =
      [none]) ∧
    ((textProductParse true s3TextAfterWmoHeader).2.2.map
        Segment.productContent ≠ [[("BODY").data]]) := by
  decide

/-- C7 (amended): parsing the S3 text product yields exactly one segment;
its header is absent, because `KSTL-` does not match the UGC pattern
`^[A-Z]{2}[CZ]([0-9]{3})?[->]`; and its product content is the five lines
`KSTL-`, the P-VTEC line, the issuance date-time line, `BODY`, and the
terminating `$$` line (which `ParseProductContent` pushes before it stops). -/
theorem textProductParse_s3_result :
    textProductParse true s3TextAfterWmoHeader =
      (true, [],
       [⟨none,
         [("KSTL-").data,
          ("/O.NEW.KSTL.SV.W.0001.250101T0000Z-250101T0100Z/").data,
          ("1200 PM CST MON JAN 01 2025").data,
          ("BODY").data,
          ("$$").data]⟩]) := by
  decide

/-- C8: each of the text-product sub-parsers `TryParseSegmentHeader`,
`TryParseMndHeader`, `TryParseVtecString` and `TryParseEndOfProduct`
restores the stream read position to exactly its value on entry whenever it
fails to recognize its construct (returns none / an empty result / false). -/
theorem subparsers_rewind_on_failure :
    (∀ s : TStream, (tryParseSegmentHeader s).1 = none →
       (tryParseSegmentHeader s).2.pos = s.pos) ∧
    (∀ s : TStream, (tryParseMndHeader s).1 = [] →
       (tryParseMndHeader s).2.pos = s.pos) ∧
    (∀ s : TStream, (tryParseVtecString s).1 = none →
       (tryParseVtecString s).2.pos = s.pos) ∧
    (∀ s : TStream, (tryParseEndOfProduct s).1 = false →
       (tryParseEndOfProduct s).2.pos = s.pos) := by
  refine ⟨fun s h => ?_, fun s h => ?_, fun s h => ?_, fun s h => ?_⟩
  · unfold tryParseSegmentHeader at h ⊢
    by_cases hm : matchUgc (tgetline s).1
    · simp [hm] at h
    · simp [hm, seekTo]
  · unfold tryParseMndHeader at h ⊢
    dsimp only at h ⊢
    split at h
    next hcond =>
      rw [if_pos hcond, if_pos rfl]
      simp [seekTo]
    next hcond =>
      split at h
      next hc2 =>
        rw [if_neg hcond, if_pos hc2]
        simp [seekTo]
      next hc2 => exact absurd (by simpa using h) hc2
  · unfold tryParseVtecString at h ⊢
    by_cases hm : matchPVtec (tgetline s).1
    · simp only [hm, if_true] at h
      split at h <;> simp at h
    · simp [hm, seekTo]
  · unfold tryParseEndOfProduct at h ⊢
    by_cases h1 : tpeek s = some etx
    · simp [h1] at h
    · by_cases h2 : tpeek s = none
      · simp [h1, h2] at h
      · by_cases h3 : tpeek (skipBlankLines (tgetline s).2) = some etx
        · simp [h1, h2, h3] at h
        · by_cases h4 : tpeek (skipBlankLines (tgetline s).2) = none
          · simp [h1, h2, h3, h4] at h
          · simp [h1, h2, h3, h4, seekTo]

/-- Witness for C8: concrete failing inputs for each sub-parser restore
the entry position (0). -/
theorem subparsers_rewind_on_failure_witness :
    ((tryParseSegmentHeader ⟨("A").data, 0, false⟩).2.pos = 0) ∧
    ((tryParseMndHeader ⟨("A").data, 0, false⟩).2.pos = 0) ∧
    ((tryParseVtecString ⟨("A").data, 0, false⟩).2.pos = 0) ∧
    ((tryParseEndOfProduct ⟨("AB\r\nCD").data, 0, false⟩).2.pos = 0) :=
  ⟨subparsers_rewind_on_failure.1 _ (by decide),
   subparsers_rewind_on_failure.2.1 _ (by decide),
   subparsers_rewind_on_failure.2.2.1 _ (by decide),
   subparsers_rewind_on_failure.2.2.2 _ (by decide)⟩

/-- C9: after `Initialize()` completes, the 0.5-degree coordinate array
holds exactly `2 × MAX_0_5_DEGREE_RADIALS × MAX_DATA_MOMENT_GATES` floats
(and the 1-degree array `2 × MAX_1_DEGREE_RADIALS × MAX_DATA_MOMENT_GATES`),
each index holding the WGS-84 direct geodesic result from the site at
azimuth `radial · 0.5 − 0.25` (resp. `radial · 1.0 − 0.5`) degrees and range
`(gate + 1) · gate_size` metres, and — provided the geodesic returns
latitudes in `[−90, 90]` and longitudes in `[−180, 180]` — every stored pair
satisfies `|lat| ≤ 90` and `−180 ≤ lon ≤ 180`. -/
theorem initialize_coordinates_spec (geodesic : GeodesicDirect)
    (site : RadarSite)
    (hg : ∀ la lo a r, |(geodesic la lo a r).1| ≤ 90 ∧
          -180 ≤ (geodesic la lo a r).2 ∧ (geodesic la lo a r).2 ≤ 180) :
    (coordinates0_5Degree geodesic site).length =
      2 * NUM_RADIAL_GATES_0_5_DEGREE ∧
    (coordinates1Degree geodesic site).length =
      2 * NUM_RADIAL_GATES_1_DEGREE ∧
    (∀ k, k < NUM_RADIAL_GATES_0_5_DEGREE →
      (coordinates0_5Degree geodesic site).get? (2 * k) =
        some (geodesic site.latitude site.longitude
          ((↑(k / MAX_DATA_MOMENT_GATES) : ℚ) * (1 / 2) - 1 / 4)
          (((↑(k % MAX_DATA_MOMENT_GATES) : ℚ) + 1) * gate_size site)).1 ∧
      (coordinates0_5Degree geodesic site).get? (2 * k + 1) =
        some (geodesic site.latitude site.longitude
          ((↑(k / MAX_DATA_MOMENT_GATES) : ℚ) * (1 / 2) - 1 / 4)
          (((↑(k % MAX_DATA_MOMENT_GATES) : ℚ) + 1) * gate_size site)).2 ∧
      |(geodesic site.latitude site.longitude
          ((↑(k / MAX_DATA_MOMENT_GATES) : ℚ) * (1 / 2) - 1 / 4)
          (((↑(k % MAX_DATA_MOMENT_GATES) : ℚ) + 1) * gate_size site)).1| ≤
        90 ∧
      -180 ≤ (geodesic site.latitude site.longitude
          ((↑(k / MAX_DATA_MOMENT_GATES) : ℚ) * (1 / 2) - 1 / 4)
          (((↑(k % MAX_DATA_MOMENT_GATES) : ℚ) + 1) * gate_size site)).2 ∧
      (geodesic site.latitude site.longitude
          ((↑(k / MAX_DATA_MOMENT_GATES) : ℚ) * (1 / 2) - 1 / 4)
          (((↑(k % MAX_DATA_MOMENT_GATES) : ℚ) + 1) * gate_size site)).2 ≤
        180) ∧
    (∀ k, k < NUM_RADIAL_GATES_1_DEGREE →
      (coordinates1Degree geodesic site).get? (2 * k) =
        some (geodesic site.latitude site.longitude
          ((↑(k / MAX_DATA_MOMENT_GATES) : ℚ) * 1 - 1 / 2)
          (((↑(k % MAX_DATA_MOMENT_GATES) : ℚ) + 1) * gate_size site)).1 ∧
      (coordinates1Degree geodesic site).get? (2 * k + 1) =
        some (geodesic site.latitude site.longitude
          ((↑(k / MAX_DATA_MOMENT_GATES) : ℚ) * 1 - 1 / 2)
          (((↑(k % MAX_DATA_MOMENT_GATES) : ℚ) + 1) * gate_size site)).2) := by
  refine ⟨?_, ?_, fun k hk => ?_, fun k hk => ?_⟩
  · simp [coordinates0_5Degree, Nat.mul_comm]
  · simp [coordinates1Degree, Nat.mul_comm]
  · have h2k : 2 * k < NUM_RADIAL_GATES_0_5_DEGREE * 2 := by omega
    have h2k1 : 2 * k + 1 < NUM_RADIAL_GATES_0_5_DEGREE * 2 := by omega
    have e1 : 2 * k / 2 = k := by omega
    have e2 : 2 * k % 2 = 0 := by omega
    have e3 : (2 * k + 1) / 2 = k := by omega
    have e4 : (2 * k + 1) % 2 = 1 := by omega
    refine ⟨?_, ?_, (hg _ _ _ _).1, (hg _ _ _ _).2.1, (hg _ _ _ _).2.2⟩
    · unfold coordinates0_5Degree
      rw [List.get?_map, List.get?_range h2k]
      simp [e1, e2]
    · unfold coordinates0_5Degree
      rw [List.get?_map, List.get?_range h2k1]
      simp [e3, e4]
  · have h2k : 2 * k < NUM_RADIAL_GATES_1_DEGREE * 2 := by omega
    have h2k1 : 2 * k + 1 < NUM_RADIAL_GATES_1_DEGREE * 2 := by omega
    have e1 : 2 * k / 2 = k := by omega
    have e2 : 2 * k % 2 = 0 := by omega
    have e3 : (2 * k + 1) / 2 = k := by omega
    have e4 : (2 * k + 1) % 2 = 1 := by omega
    constructor
    · unfold coordinates1Degree
      rw [List.get?_map, List.get?_range h2k]
      simp [e1, e2]
    · unfold coordinates1Degree
      rw [List.get?_map, List.get?_range h2k1]
      simp [e3, e4]

/-- Witness for C9: with a concrete geodesic map returning the site itself
(lat 38, lon −90, within bounds), the 0.5-degree array has the full length
and entry 0 holds the geodesic latitude. -/
theorem initialize_coordinates_spec_witness :
    (coordinates0_5Degree (fun _ _ _ _ => ((38 : ℚ), (-90 : ℚ)))
        ⟨38, -90, ("wsr88d")⟩).length = 2 * NUM_RADIAL_GATES_0_5_DEGREE ∧
    (coordinates0_5Degree (fun _ _ _ _ => ((38 : ℚ), (-90 : ℚ)))
        ⟨38, -90, ("wsr88d")⟩).get? 0 = some 38 :=
  ⟨(initialize_coordinates_spec (fun _ _ _ _ => (38, -90)) ⟨38, -90, ("wsr88d")⟩
      (fun la lo a r => by norm_num)).1,
   ((initialize_coordinates_spec (fun _ _ _ _ => (38, -90)) ⟨38, -90, ("wsr88d")⟩
      (fun la lo a r => by norm_num)).2.2.1 0 (by norm_num [NUM_RADIAL_GATES_0_5_DEGREE, MAX_0_5_DEGREE_RADIALS, MAX_DATA_MOMENT_GATES])).1⟩

/-- C10: when the Level-2 record cache is non-empty and the requested time
is a default-constructed time point (the epoch, `0`), the Level-2 record
lookup returns the record with the greatest cached time; for any other
requested time it returns the record with the greatest key `≤ time`
(`none` when no key is `≤ time`), except that it returns null when that
record's Level-2 file start time is strictly after the requested time. -/
theorem getLevel2ProductRecord_spec (m : RadarProductRecordMap) (t : Nat)
    (hs : m.Pairwise (fun a b => a.1 < b.1)) :
    (m ≠ [] → t = 0 →
      ∃ k r, (k, r) ∈ m ∧ getLevel2ProductRecord m t = some r ∧
        ∀ p ∈ m, p.1 ≤ k) ∧
    (t ≠ 0 →
      ((∀ p ∈ m, t < p.1) → getLevel2ProductRecord m t = none) ∧
      (∀ k r, (k, r) ∈ m → k ≤ t → (∀ p ∈ m, p.1 ≤ t → p.1 ≤ k) →
        getLevel2ProductRecord m t =
          if t < r.level2StartTimeMs then none else some r)) := by
  constructor
  · intro hne ht
    obtain ⟨k, v, hlast, hmem, hbound⟩ := sorted_getLast_greatest m hs hne
    refine ⟨k, v, hmem, ?_, hbound⟩
    unfold getLevel2ProductRecord
    rw [if_pos ⟨by simpa using hne, ht⟩]
    rw [hlast]
    rfl
  · intro ht
    constructor
    · intro hall
      unfold getLevel2ProductRecord
      rw [if_neg (by tauto)]
      rw [getBoundedElementValue_eq_none m t hall]
    · intro k r hmem hk hmax
      unfold getLevel2ProductRecord
      rw [if_neg (by tauto)]
      rw [getBoundedElementValue_eq_greatest m t k r hs hmem hk hmax]

/-- A concrete Level-2 record at key 1000 ms with file start 500 ms. -/
def recordC : RadarProductRecord :=
  ⟨1000, RadarProductGroup.Level2, "", "KLSX", 500⟩

/-- A concrete Level-2 record at key 3000 ms with file start 2800 ms. -/
def recordD : RadarProductRecord :=
  ⟨3000, RadarProductGroup.Level2, "", "KLSX", 2800⟩

/-- A sorted two-entry Level-2 cache for the C10 witness. -/
def level2MapW : RadarProductRecordMap := [(1000, recordC), (3000, recordD)]

/-- Witness for C10: at requested time 2500 the bounded lookup returns the
record at the greatest key 1000 ≤ 2500, whose start time 500 does not
exceed the request. -/
theorem getLevel2ProductRecord_spec_witness :
    getLevel2ProductRecord level2MapW 2500 = some recordC :=
  (((getLevel2ProductRecord_spec level2MapW 2500
      (by simp [level2MapW])).2 (by decide)).2 1000 recordC
      (by simp [level2MapW]) (by decide) (by decide)).trans (by rfl)

end Scwx
